import Mathlib

/-! # Definitions -/

/-!
Shallow embedding of the reactive layer of `climakitaegui`:

* the retrieval/compute gate of `explore/thresholds.py`
  (`ThresholdParameters`: dirty flags, `_update_data`, `view`),
* the lat/lon extent selection of `core/data_interface.py` (`_map_view`),
* the colormap policy of `explore/warming.py` (`_get_cmap`),
* the postage-stamp layout switch of `explore/warming.py`
  (`GCM_PostageStamps_MAIN_compute`),
* the meteorological-year heatmap input validation of `explore/amy.py`
  (`meteo_yr_heatmap`).

External library functions (`get_threshold_data`, `convert_units`,
`get_exceedance_count`, ...) are parameters of the embedded definitions; the
dataset type is a type parameter `α`.
-/

/-! ## Thresholds retrieval gate (`explore/thresholds.py`) -/

/-- The slice of the `ThresholdParameters` object state that the
`reload_data` gate reads and writes: the two dirty flags
(`changed_loc_and_var`, `changed_units`), the cached dataset `da`, the
currently selected `units`, the derived default `threshold_value` and the
label of its widget. -/
structure ThState (α : Type) where
  changed_loc_and_var : Bool
  changed_units : Bool
  da : α
  units : String
  threshold_value : Int
  threshold_label : String
  deriving Repr, DecidableEq

/-- The f-string `"Value (units: " + units + ")"` written to
`self.param.threshold_value.label`. -/
def threshold_value_label (units : String) : String :=
  "Value (units: " ++ units ++ ")"

/-- The watcher `_updated_units` (fires when the `units` param actually
changes value): record the new units and set the `changed_units` flag. -/
def set_units {α : Type} (s : ThState α) (u : String) : ThState α :=
  if u = s.units then s else { s with units := u, changed_units := true }

/-- The watcher `_updated_bool_loc_and_var` (fires when `area_subset`,
`cached_area` or `variable` changes): set the `changed_loc_and_var` flag. -/
def set_loc_and_var_changed {α : Type} (s : ThState α) : ThState α :=
  { s with changed_loc_and_var := true }

/-- Result of one `_update_data` run, instrumented with how many times the
external retrieval (`get_threshold_data`) and the unit conversion
(`convert_units`) were called. -/
structure UpdateResult (α : Type) where
  state : ThState α
  retrievalCalls : Nat
  convertCalls : Nat
  deriving Repr, DecidableEq

/-- Second `if` of `_update_data`: if `changed_units`, convert the cached
dataset to the selected units, recompute `threshold_value` as the rounded
mean of the converted dataset, refresh the widget label, clear the flag.
`meanRound` embeds `round(da.mean().values.item())`. -/
def _update_data_units_step {α : Type} (convert_units : α → String → α)
    (meanRound : α → Int) (s : ThState α) (retrievals : Nat) :
    UpdateResult α :=
  if s.changed_units then
    let newDa := convert_units s.da s.units
    ⟨{ s with da := newDa,
              threshold_value := meanRound newDa,
              threshold_label := threshold_value_label s.units,
              changed_units := false }, retrievals, 1⟩
  else ⟨s, retrievals, 0⟩

/-- `_update_data` (the `reload_data` trigger). The external retrieval
`get_threshold_data` may fail (raise); on failure the exception propagates
and the object is left in the state it had at the raise point, returned in
`Except.error`. On success the result carries the final state together with
the number of retrieval and conversion calls. Control flow from the source:
two independent `if`s, the first on `changed_loc_and_var` (full retrieval,
clear flag), the second on `changed_units` (conversion, recompute
`threshold_value`, clear flag). -/
def _update_data {α : Type} (get_threshold_data : ThState α → Option α)
    (convert_units : α → String → α) (meanRound : α → Int)
    (s : ThState α) : Except (ThState α) (UpdateResult α) :=
  if s.changed_loc_and_var then
    match get_threshold_data s with
    | none => Except.error s
    | some d =>
        Except.ok (_update_data_units_step convert_units meanRound
          { s with da := d, changed_loc_and_var := false } 1)
  else
    Except.ok (_update_data_units_step convert_units meanRound s 0)

/-! ## Lat/lon extent selection (`core/data_interface.py`, `_map_view`) -/

/-- An axis-aligned lon/lat box `[x0, x1, y0, y1]` (xmin, xmax, ymin, ymax):
the form of the three reference extents of `_map_view` and of the geometry
built by `box(extent[0], extent[2], extent[1], extent[3])`. Coordinates are
rationals, embedding the exact comparisons shapely performs on the floats. -/
structure BBox where
  x0 : ℚ
  x1 : ℚ
  y0 : ℚ
  y1 : ℚ
  deriving Repr, DecidableEq

/-- Shapely `outer.contains(g)` for a nondegenerate axis-aligned box `g`:
every point of `g` lies within the closed box `outer` (for boxes with
nonempty interior this closed inclusion is exactly shapely containment). -/
def bboxContains (outer g : BBox) : Bool :=
  outer.x0 ≤ g.x0 && g.x1 ≤ outer.x1 && outer.y0 ≤ g.y0 && g.y1 ≤ outer.y1

/-- Box inclusion `inner ⊆ outer`, used to phrase "smallest extent". -/
def bboxSubset (inner outer : BBox) : Bool :=
  bboxContains outer inner

/-- `ca_extent = [-125, -114, 31, 43]`: zoom in on CA. -/
def ca_extent : BBox := ⟨-125, -114, 31, 43⟩

/-- `us_extent = [-130, -100, 25, 50]`: western USA. -/
def us_extent : BBox := ⟨-130, -100, 25, 50⟩

/-- `na_extent = [-150, -88, 8, 66]`: North America (largest extent). -/
def na_extent : BBox := ⟨-150, -88, 8, 66⟩

/-- The candidate list `[ca_extent, us_extent, na_extent]`, iterated in this
order by `_map_view`. -/
def extent_candidates : List BBox := [ca_extent, us_extent, na_extent]

/-- The `for extent_i in [ca_extent, us_extent, na_extent]` loop with its
`break`: the first candidate whose box contains the selection geometry. -/
def first_containing_extent (g : BBox) : List BBox → Option BBox
  | [] => none
  | e :: rest =>
      if bboxContains e g then some e else first_containing_extent g rest

/-- Extent selection of `_map_view` when `area_subset == "lat/lon"`:
`extent = na_extent` as default, overridden by the first candidate that
contains the selection geometry. -/
def _map_view_latlon_extent (g : BBox) : BBox :=
  (first_containing_extent g extent_candidates).getD na_extent

/-! ## Postage-stamp layout switch (`explore/warming.py`,
`GCM_PostageStamps_MAIN_compute`) -/

/-- One simulation slice of the snapshot data at one warming level: its
name and whether all of its values are null, i.e. whether
`data_to_plot.sel(simulation=sim).isnull().all()` holds. -/
structure SimSlice where
  name : String
  allNull : Bool
  deriving Repr, DecidableEq

/-- The per-warming-level output shapes of `GCM_PostageStamps_MAIN_compute`:
the static "No simulations reach this warming level" message; a
small-multiple grid (`.layout().cols(2)`) of per-simulation plots (scatter
when a spatial dimension is degenerate, quadmesh with shared `clim` and a
shared colorbar otherwise); or a single plot with an interactive
simulation-selector widget (`widget_location="bottom"`). -/
inductive PostageView where
  | noSimsMessage
  | scatterGrid (sims : List String)
  | quadmeshGrid (sims : List String)
  | scatterSelector (sims : List String)
  | quadmeshSelector (sims : List String)
  deriving Repr, DecidableEq

/-- Whether the view is a small-multiple grid of per-simulation plots. -/
def PostageView.isGrid : PostageView → Bool
  | .scatterGrid _ => true
  | .quadmeshGrid _ => true
  | _ => false

/-- Whether the view is a single plot with a simulation-selector widget. -/
def PostageView.isSelector : PostageView → Bool
  | .scatterSelector _ => true
  | .quadmeshSelector _ => true
  | _ => false

/-- The loop in `GCM_PostageStamps_MAIN_compute` that removes every
simulation whose values are all null, so no empty plot is generated. -/
def drop_all_null_sims (sims : List SimSlice) : List SimSlice :=
  sims.filter (fun s => !s.allNull)

/-- Body of the per-warming-level loop of `GCM_PostageStamps_MAIN_compute`:
if every value is null, the static message; otherwise drop the all-null
simulations and, if at most four remain, build the grid of per-simulation
plots, else a single plot with a simulation selector (scatter variants when
one spatial dimension has length at most 1, `singleSpatialDims`, from
`_check_single_spatial_dims`). -/
def GCM_PostageStamps_MAIN_one_level (singleSpatialDims : Bool)
    (sims : List SimSlice) : PostageView :=
  if sims.all (fun s => s.allNull) then .noSimsMessage
  else
    if (drop_all_null_sims sims).length ≤ 4 then
      if singleSpatialDims then
        .scatterGrid ((drop_all_null_sims sims).map (fun s => s.name))
      else .quadmeshGrid ((drop_all_null_sims sims).map (fun s => s.name))
    else
      if singleSpatialDims then
        .scatterSelector ((drop_all_null_sims sims).map (fun s => s.name))
      else .quadmeshSelector ((drop_all_null_sims sims).map (fun s => s.name))

/-! ## View error handling (`explore/thresholds.py`,
`ThresholdParameters.view`) -/

/-- Rendered result of `ThresholdParameters.view`: either the caught
exception, returned in place of the plot, or the `pn.Column` assembled from
the reload button, the plot title, the plot subtitle and the plot object. -/
inductive ViewResult (ε γ : Type) where
  | errorView (e : ε)
  | columnView (title : String) (subtitle : String) (obj : γ)
  deriving Repr, DecidableEq

/-- `ThresholdParameters.view`. `transform_data` is the (already applied)
result of `self.transform_data()` and `plot_exceedance_count` the exterior
plotting helper, both fallible (`Except.error` embeds a raised exception);
`exceedance_plot_title`/`exceedance_plot_subtitle` are external pure
helpers. The `try` block covers the transform and the plot call; a raised
exception is returned as the view. -/
def ThresholdParameters_view {β γ ε : Type} (transform_data : Except ε β)
    (plot_exceedance_count : β → Except ε γ)
    (exceedance_plot_title : β → String)
    (exceedance_plot_subtitle : β → String) : ViewResult ε γ :=
  match transform_data with
  | .error e => .errorView e
  | .ok to_plot =>
      match plot_exceedance_count to_plot with
      | .error e => .errorView e
      | .ok obj =>
          .columnView (exceedance_plot_title to_plot)
            (exceedance_plot_subtitle to_plot) obj

/-! ## Colormap policy (`explore/warming.py`, `_get_cmap`) -/

/-- `sub` occurs at the start of `l`. -/
def charsHasPre : List Char → List Char → Bool
  | [], _ => true
  | _ :: _, [] => false
  | a :: as, b :: bs => a = b && charsHasPre as bs

/-- `sub` occurs somewhere in `l`. -/
def charsContain (sub : List Char) : List Char → Bool
  | [] => charsHasPre sub []
  | b :: bs => charsHasPre sub (b :: bs) || charsContain sub bs

/-- Python substring containment `sub in s`. -/
def strContainsSub (s sub : String) : Bool :=
  charsContain sub.data s.data

/-- The `moisture_variables` list of `_get_cmap`. -/
def moisture_variables : List String :=
  ["Precipitation (total)",
   "Water Vapor Mixing Ratio at 2m",
   "Snowfall (snow and ice)",
   "Precipitation (cumulus portion only)",
   "Precipitation (grid-scale portion only)",
   "Subsurface runoff",
   "Surface runoff",
   "Snow water equivalent",
   "Snowfall",
   "Precipitation (convective only)"]

/-- `variable_descriptions[variable_descriptions["display_name"] ==
variable]["colormap"].values[0]`: the colormap of the first row whose
display name matches; `none` embeds the index error raised when the
variable is absent from the table. -/
def lookup_colormap (variable_descriptions : List (String × String))
    (v : String) : Option String :=
  ((variable_descriptions.filter (fun p => p.1 == v)).map
    (fun p => p.2)).head?

/-- First override of `_get_cmap`: force a diverging colormap when the data
minimum is below zero and the default colormap is not already diverging
(reverse diverging for moisture variables). -/
def _get_cmap_step1 (varName cmap0 : String) (vmin : ℚ) : String :=
  if vmin < 0 ∧ strContainsSub cmap0 "ae_diverging" = false then
    if varName ∈ moisture_variables then "ae_diverging_r"
    else "ae_diverging"
  else cmap0

/-- Second override of `_get_cmap`: reset a colormap that is exactly
`"ae_diverging"` to `ae_orange` (`ae_blue` for moisture variables) when the
data minimum is at or above zero. -/
def _get_cmap_step2 (varName c1 : String) (vmin : ℚ) : String :=
  if c1 = "ae_diverging" ∧ 0 ≤ vmin then
    if varName ∈ moisture_variables then "ae_blue" else "ae_orange"
  else c1

/-- `_get_cmap` of `explore/warming.py` up to the final hex lookup
(`read_ae_colormap` is external): the colormap NAME chosen for a variable
given the data minimum `vmin`. -/
def _get_cmap_name (variable_descriptions : List (String × String))
    (varName : String) (vmin : ℚ) : Option String :=
  (lookup_colormap variable_descriptions varName).map
    (fun cmap0 =>
      _get_cmap_step2 varName (_get_cmap_step1 varName cmap0 vmin) vmin)

/-! ## Meteorological-year heatmap validation (`explore/amy.py`,
`meteo_yr_heatmap`) -/

/-- The ytick list `idx` of `meteo_yr_heatmap` (366-day leap-year layout):
day-of-year positions paired with month labels. -/
def meteo_yr_yticks : List (Nat × String) :=
  [(31, "Feb-01"), (91, "Apr-01"), (152, "Jun-01"),
   (213, "Aug-01"), (274, "Oct-01"), (335, "Dec-01")]

/-- The plot options of the heatmap built by `meteo_yr_heatmap` that the
dataframe length determines (the colormap handling and the actual hvplot
rendering are external). -/
structure HeatmapSpec where
  yticks : List (Nat × String)
  frame_width : Nat
  frame_height : Nat
  title : String
  deriving Repr, DecidableEq

/-- `meteo_yr_heatmap` of `explore/amy.py`: dataframe rows are abstract
(`row`); only the number of rows is inspected. 366 rows: leap year, ticks
as-is; 365 rows: normal year, each tick position shifted down by one;
anything else: `ValueError`. -/
def meteo_yr_heatmap {row : Type} (meteo_yr_df : List row) (title : String)
    (width height : Nat) : Except String HeatmapSpec :=
  if meteo_yr_df.length = 366 then
    Except.ok ⟨meteo_yr_yticks, width, height, title⟩
  else if meteo_yr_df.length = 365 then
    Except.ok ⟨meteo_yr_yticks.map (fun p => (p.1 - 1, p.2)), width, height,
      title⟩
  else
    Except.error
      "Length of dataframe is invalid. Must contain either 366 or 365 days."

/-! # Theorems -/

/-- After a successful `_update_data` run both dirty flags are clear. -/
theorem _update_data_clears_flags {α : Type}
    (g : ThState α → Option α) (c : α → String → α) (m : α → Int)
    (s : ThState α) (r : UpdateResult α)
    (h : _update_data g c m s = Except.ok r) :
    r.state.changed_loc_and_var = false ∧ r.state.changed_units = false := by
  unfold _update_data _update_data_units_step at h
  split at h
  · cases hg : g s with
    | none => rw [hg] at h; cases h
    | some d =>
        rw [hg] at h
        injection h with h
        subst h
        split <;> simp_all
  · injection h with h
    subst h
    split <;> simp_all

/-- C1: with the location/variable dirty flag clear, changing `units` (which
only sets the `changed_units` flag) and then triggering `reload_data` runs
the conversion branch alone: the external retrieval is never consulted (the
result holds for every `get_threshold_data`, even one that always fails),
`retrievalCalls = 0`, `convertCalls = 1`, and the cached dataset is exactly
the unit conversion of the previously cached dataset. -/
theorem units_only_change_skips_retrieval {α : Type}
    (get_threshold_data : ThState α → Option α)
    (convert_units : α → String → α) (meanRound : α → Int)
    (s : ThState α) (u : String)
    (hloc : s.changed_loc_and_var = false) (hu : u ≠ s.units) :
    _update_data get_threshold_data convert_units meanRound (set_units s u) =
      Except.ok ⟨{ s with
                   units := u,
                   da := convert_units s.da u,
                   threshold_value := meanRound (convert_units s.da u),
                   threshold_label := threshold_value_label u,
                   changed_units := false }, 0, 1⟩ := by
  unfold set_units _update_data _update_data_units_step
  simp [hu, hloc]

/-- C1 witness: concrete run of the unit-only change path. -/
theorem units_only_change_skips_retrieval_witness :
    _update_data (α := Int) (fun _ => none) (fun d _ => d + 1) (fun d => d)
      (set_units ⟨false, false, 10, "K", 10, "Value (units: K)"⟩ "degC") =
      Except.ok ⟨⟨false, false, 11, "degC", 11, "Value (units: degC)"⟩, 0, 1⟩ :=
  units_only_change_skips_retrieval (fun _ => none) (fun d _ => d + 1)
    (fun d => d) ⟨false, false, 10, "K", 10, "Value (units: K)"⟩ "degC"
    rfl (by decide)

/-- C2: a second `reload_data` trigger right after a successful one, with no
parameter mutation in between, performs zero retrieval calls and zero
conversion calls and leaves the state unchanged (the first run cleared both
dirty flags). -/
theorem reload_twice_second_is_noop {α : Type}
    (get_threshold_data : ThState α → Option α)
    (convert_units : α → String → α) (meanRound : α → Int)
    (s : ThState α) (r : UpdateResult α)
    (h : _update_data get_threshold_data convert_units meanRound s =
      Except.ok r) :
    _update_data get_threshold_data convert_units meanRound r.state =
      Except.ok ⟨r.state, 0, 0⟩ := by
  obtain ⟨h1, h2⟩ := _update_data_clears_flags get_threshold_data
    convert_units meanRound s r h
  unfold _update_data _update_data_units_step
  simp [h1, h2]

/-- C2 witness: concrete double reload. -/
theorem reload_twice_second_is_noop_witness :
    _update_data (α := Int) (fun _ => some 7) (fun d _ => d) (fun d => d)
      (⟨false, false, 7, "K", 7, "lbl"⟩ : ThState Int) =
      Except.ok ⟨⟨false, false, 7, "K", 7, "lbl"⟩, 0, 0⟩ :=
  reload_twice_second_is_noop (fun _ => some 7) (fun d _ => d) (fun d => d)
    ⟨true, false, 0, "K", 7, "lbl"⟩ ⟨⟨false, false, 7, "K", 7, "lbl"⟩, 1, 0⟩
    rfl

/-- C3 counterexample: the two branches of `_update_data` are independent
`if`s, not `if`/`elif`. With both dirty flags set, the full retrieval runs
AND the unit conversion is also applied to the freshly retrieved dataset:
here retrieval yields `7`, conversion adds `100`, and the run ends with
`convertCalls = 1` and cached dataset `107` — the conversion step was not
skipped. -/
theorem both_flags_conversion_not_skipped_cex :
    _update_data (α := Int) (fun _ => some 7) (fun d _ => d + 100)
      (fun d => d) ⟨true, true, 0, "K", 0, "lbl"⟩ =
      Except.ok ⟨⟨false, false, 107, "K", 107, "Value (units: K)"⟩, 1, 1⟩ :=
  rfl

/-- C3 amended: on a `reload_data` trigger with both dirty flags set, the
full external retrieval runs (one call) and then the unit-conversion
transform is ALSO applied to the freshly retrieved dataset (one call); both
flags end clear and `threshold_value` is the rounded mean of the converted
dataset. -/
theorem both_flags_retrieval_then_conversion {α : Type}
    (get_threshold_data : ThState α → Option α)
    (convert_units : α → String → α) (meanRound : α → Int)
    (s : ThState α) (d : α)
    (hl : s.changed_loc_and_var = true) (hu : s.changed_units = true)
    (hg : get_threshold_data s = some d) :
    _update_data get_threshold_data convert_units meanRound s =
      Except.ok ⟨{ s with
                   da := convert_units d s.units,
                   threshold_value := meanRound (convert_units d s.units),
                   threshold_label := threshold_value_label s.units,
                   changed_loc_and_var := false,
                   changed_units := false }, 1, 1⟩ := by
  unfold _update_data _update_data_units_step
  simp [hl, hu, hg]

/-- C3 amended witness: concrete run with both flags set. -/
theorem both_flags_retrieval_then_conversion_witness :
    _update_data (α := Int) (fun _ => some 7) (fun d _ => d + 100)
      (fun d => d) ⟨true, true, 0, "degF", 0, "lbl"⟩ =
      Except.ok ⟨⟨false, false, 107, "degF", 107, "Value (units: degF)"⟩,
        1, 1⟩ :=
  both_flags_retrieval_then_conversion (fun _ => some 7) (fun d _ => d + 100)
    (fun d => d) ⟨true, true, 0, "degF", 0, "lbl"⟩ 7 rfl rfl rfl

/-- C4 counterexample: a reload with only the location/variable flag set
refreshes the cached dataset by full retrieval (`retrievalCalls = 1`, `da`
becomes `50`) but does NOT recompute `threshold_value`: it stays `0`, which
differs from the rounded mean (`50`) of the refreshed dataset. -/
theorem retrieval_only_reload_keeps_threshold_cex :
    _update_data (α := Int) (fun _ => some 50) (fun d _ => d) (fun d => d)
      ⟨true, false, 0, "K", 0, "lbl"⟩ =
      Except.ok ⟨⟨false, false, 50, "K", 0, "lbl"⟩, 1, 0⟩ ∧
    (⟨false, false, 50, "K", 0, "lbl"⟩ : ThState Int).threshold_value ≠
      (⟨false, false, 50, "K", 0, "lbl"⟩ : ThState Int).da := by
  exact ⟨rfl, by decide⟩

/-- C4 amended: `threshold_value` is recomputed (as the rounded mean of the
refreshed dataset) exactly when the units branch runs; a successful reload
with `changed_units` clear — including a full-retrieval reload — leaves
`threshold_value` unchanged. -/
theorem threshold_default_recompute_amended {α : Type}
    (get_threshold_data : ThState α → Option α)
    (convert_units : α → String → α) (meanRound : α → Int)
    (s : ThState α) (r : UpdateResult α)
    (h : _update_data get_threshold_data convert_units meanRound s =
      Except.ok r) :
    (s.changed_units = true → r.state.threshold_value = meanRound r.state.da)
      ∧
    (s.changed_units = false →
      r.state.threshold_value = s.threshold_value) := by
  unfold _update_data _update_data_units_step at h
  split at h
  · cases hg : get_threshold_data s with
    | none => rw [hg] at h; cases h
    | some d =>
        rw [hg] at h
        injection h with h
        subst h
        split <;> simp_all
  · injection h with h
    subst h
    split <;> simp_all

/-- C4 amended witness: units branch recomputes, retrieval-only branch does
not. -/
theorem threshold_default_recompute_amended_witness :
    (⟨false, false, 50, "K", 0, "lbl"⟩ : ThState Int).threshold_value =
      (0 : Int) :=
  (threshold_default_recompute_amended (α := Int) (fun _ => some 50)
    (fun d _ => d) (fun d => d) ⟨true, false, 0, "K", 0, "lbl"⟩
    ⟨⟨false, false, 50, "K", 0, "lbl"⟩, 1, 0⟩ rfl).2 rfl

/-- C5: if the external retrieval fails during a `reload_data` trigger, the
exception propagates with the object exactly in its pre-reload state: the
previously cached dataset is still referenced and the location/variable
dirty flag is still set. -/
theorem failed_retrieval_leaves_state_intact {α : Type}
    (get_threshold_data : ThState α → Option α)
    (convert_units : α → String → α) (meanRound : α → Int)
    (s : ThState α)
    (hl : s.changed_loc_and_var = true) (hg : get_threshold_data s = none) :
    _update_data get_threshold_data convert_units meanRound s =
      Except.error s := by
  unfold _update_data
  simp [hl, hg]

/-- C5 witness: concrete failed retrieval. -/
theorem failed_retrieval_leaves_state_intact_witness :
    _update_data (α := Int) (fun _ => none) (fun d _ => d) (fun d => d)
      ⟨true, false, 42, "K", 42, "lbl"⟩ =
      Except.error ⟨true, false, 42, "K", 42, "lbl"⟩ :=
  failed_retrieval_leaves_state_intact (fun _ => none) (fun d _ => d)
    (fun d => d) ⟨true, false, 42, "K", 42, "lbl"⟩ rfl rfl

/-- Characterization of the loop as nested conditionals. -/
theorem latlon_extent_eq (g : BBox) :
    _map_view_latlon_extent g =
      if bboxContains ca_extent g then ca_extent
      else if bboxContains us_extent g then us_extent
      else na_extent := by
  unfold _map_view_latlon_extent first_containing_extent extent_candidates
  by_cases h1 : bboxContains ca_extent g = true <;>
    by_cases h2 : bboxContains us_extent g = true <;>
      by_cases h3 : bboxContains na_extent g = true <;>
        simp [h1, h2, h3, first_containing_extent]

/-- C6: for a lat/lon selection, the display extent is a candidate extent;
it is the smallest candidate (w.r.t. box inclusion) among those whose box
contains the selection geometry whenever at least one does, and it is the
largest (continental) extent when none of the three contains the geometry. -/
theorem latlon_extent_smallest_containing (g : BBox) :
    _map_view_latlon_extent g ∈ extent_candidates ∧
    (∀ e ∈ extent_candidates, bboxContains e g = true →
      bboxContains (_map_view_latlon_extent g) g = true ∧
      bboxSubset (_map_view_latlon_extent g) e = true) ∧
    ((∀ e ∈ extent_candidates, bboxContains e g = false) →
      _map_view_latlon_extent g = na_extent) := by
  rw [latlon_extent_eq g]
  by_cases h1 : bboxContains ca_extent g = true
  · rw [if_pos h1]
    refine ⟨by decide, ?_, ?_⟩
    · intro e he hce
      simp only [extent_candidates, List.mem_cons, List.not_mem_nil,
        or_false] at he
      rcases he with rfl | rfl | rfl
      · exact ⟨h1, by decide⟩
      · exact ⟨h1, by decide⟩
      · exact ⟨h1, by decide⟩
    · intro hnone
      have hfalse := hnone ca_extent (by decide)
      exact absurd h1 (by simp [hfalse])
  · rw [if_neg h1]
    by_cases h2 : bboxContains us_extent g = true
    · rw [if_pos h2]
      refine ⟨by decide, ?_, ?_⟩
      · intro e he hce
        simp only [extent_candidates, List.mem_cons, List.not_mem_nil,
          or_false] at he
        rcases he with rfl | rfl | rfl
        · exact absurd hce h1
        · exact ⟨h2, by decide⟩
        · exact ⟨h2, by decide⟩
      · intro hnone
        have hfalse := hnone us_extent (by decide)
        exact absurd h2 (by simp [hfalse])
    · rw [if_neg h2]
      refine ⟨by decide, ?_, ?_⟩
      · intro e he hce
        simp only [extent_candidates, List.mem_cons, List.not_mem_nil,
          or_false] at he
        rcases he with rfl | rfl | rfl
        · exact absurd hce h1
        · exact absurd hce h2
        · exact ⟨hce, by decide⟩
      · intro _
        rfl

/-- C6 witness: a selection box strictly inside California resolves to an
extent that contains it and is included in the regional CA extent (hence it
is the CA extent, not the continental one). -/
theorem latlon_extent_smallest_containing_witness :
    bboxContains (_map_view_latlon_extent ⟨-120, -118, 33, 35⟩)
        ⟨-120, -118, 33, 35⟩ = true ∧
    bboxSubset (_map_view_latlon_extent ⟨-120, -118, 33, 35⟩) ca_extent =
      true :=
  (latlon_extent_smallest_containing ⟨-120, -118, 33, 35⟩).2.1 ca_extent
    (by decide) (by decide)

/-- C7: at every warming level whose data has at least one non-all-null
simulation, the layout is the small-multiple grid when at most 4
simulations remain after dropping the all-null ones, and the single plot
with a simulation-selector widget when 5 or more remain. -/
theorem postage_grid_selector_switch (singleSpatialDims : Bool)
    (sims : List SimSlice) (hsome : ∃ s ∈ sims, s.allNull = false) :
    ((drop_all_null_sims sims).length ≤ 4 →
      (GCM_PostageStamps_MAIN_one_level singleSpatialDims sims).isGrid =
        true) ∧
    (5 ≤ (drop_all_null_sims sims).length →
      (GCM_PostageStamps_MAIN_one_level singleSpatialDims sims).isSelector =
        true) := by
  have hall : sims.all (fun s => s.allNull) = false := by
    obtain ⟨s, hs, hn⟩ := hsome
    cases hca : sims.all (fun s => s.allNull) with
    | false => rfl
    | true =>
        have hx := List.all_eq_true.mp hca s hs
        simp only [hn] at hx
        exact Bool.noConfusion hx
  unfold GCM_PostageStamps_MAIN_one_level
  rw [hall]
  constructor
  · intro h4
    simp only [Bool.false_eq_true, if_false, if_pos h4]
    cases singleSpatialDims <;> simp [PostageView.isGrid]
  · intro h5
    simp only [Bool.false_eq_true, if_false, if_neg (by omega :
      ¬ (drop_all_null_sims sims).length ≤ 4)]
    cases singleSpatialDims <;> simp [PostageView.isSelector]

/-- C7 witness: with five non-null simulations the selector layout is
chosen (and with the same data truncated to four, the grid would be). -/
theorem postage_grid_selector_switch_witness :
    5 ≤ (drop_all_null_sims
      [⟨"s1", false⟩, ⟨"s2", false⟩, ⟨"s3", false⟩, ⟨"s4", false⟩,
       ⟨"s5", false⟩]).length ∧
    (GCM_PostageStamps_MAIN_one_level false
      [⟨"s1", false⟩, ⟨"s2", false⟩, ⟨"s3", false⟩, ⟨"s4", false⟩,
       ⟨"s5", false⟩]).isSelector = true :=
  ⟨by decide,
    (postage_grid_selector_switch false
      [⟨"s1", false⟩, ⟨"s2", false⟩, ⟨"s3", false⟩, ⟨"s4", false⟩,
       ⟨"s5", false⟩] ⟨⟨"s1", false⟩, by decide, rfl⟩).2 (by decide)⟩

/-- C8: whenever the derived-quantity computation raises — either in
`transform_data` or in `plot_exceedance_count` — `view` catches the
exception and returns it as the rendered view; no exception propagates. -/
theorem view_catches_and_renders_errors {β γ ε : Type}
    (transform_data : Except ε β) (plot_exceedance_count : β → Except ε γ)
    (title : β → String) (subtitle : β → String) :
    (∀ e, transform_data = Except.error e →
      ThresholdParameters_view transform_data plot_exceedance_count title
        subtitle = ViewResult.errorView e) ∧
    (∀ b e, transform_data = Except.ok b →
      plot_exceedance_count b = Except.error e →
      ThresholdParameters_view transform_data plot_exceedance_count title
        subtitle = ViewResult.errorView e) := by
  constructor
  · intro e he
    subst he
    rfl
  · intro b e hb hp
    subst hb
    simp [ThresholdParameters_view, hp]

/-- C8 witness: a transform failure and a plot failure, both rendered. -/
theorem view_catches_and_renders_errors_witness :
    ThresholdParameters_view (β := Nat) (γ := Nat) (ε := String)
      (Except.error "transform failed") (fun b => Except.ok b)
      (fun _ => "t") (fun _ => "s") = ViewResult.errorView
        "transform failed" ∧
    ThresholdParameters_view (β := Nat) (γ := Nat) (ε := String)
      (Except.ok 3) (fun _ => Except.error "plot failed")
      (fun _ => "t") (fun _ => "s") = ViewResult.errorView "plot failed" :=
  ⟨(view_catches_and_renders_errors (Except.error "transform failed")
      (fun b => Except.ok b) (fun _ => "t") (fun _ => "s")).1
      "transform failed" rfl,
   (view_catches_and_renders_errors (Except.ok 3)
      (fun _ => Except.error "plot failed") (fun _ => "t")
      (fun _ => "s")).2 3 "plot failed" rfl rfl⟩

/-- C9 counterexample: for the moisture variable "Precipitation (total)"
with default colormap `"ae_diverging_r"` and a data minimum of `1 ≥ 0`, the
code keeps `"ae_diverging_r"` — a diverging palette, not the sequential
`ae_blue`/`ae_orange` the claim requires — because the second override only
fires on a colormap that is exactly `"ae_diverging"`. -/
theorem cmap_nonneg_keeps_reverse_diverging_cex :
    _get_cmap_name [("Precipitation (total)", "ae_diverging_r")]
      "Precipitation (total)" 1 = some "ae_diverging_r" ∧
    strContainsSub "ae_diverging_r" "ae_diverging" = true ∧
    "ae_diverging_r" ≠ "ae_orange" ∧ "ae_diverging_r" ≠ "ae_blue" := by
  refine ⟨by decide, by decide, by decide, by decide⟩

/-- Helper: the first override leaves the default colormap alone unless the
minimum is negative and the default lacks the diverging marker. -/
theorem _get_cmap_step1_id (v c0 : String) (vmin : ℚ)
    (h : ¬ (vmin < 0 ∧ strContainsSub c0 "ae_diverging" = false)) :
    _get_cmap_step1 v c0 vmin = c0 := if_neg h

/-- Helper: the first override forces a diverging colormap when the minimum
is negative and the default lacks the diverging marker. -/
theorem _get_cmap_step1_force (v c0 : String) (vmin : ℚ)
    (h1 : vmin < 0) (h2 : strContainsSub c0 "ae_diverging" = false) :
    _get_cmap_step1 v c0 vmin =
      if v ∈ moisture_variables then "ae_diverging_r" else "ae_diverging" :=
  if_pos ⟨h1, h2⟩

/-- Helper: the second override is the identity unless the colormap is
exactly `"ae_diverging"` and the minimum nonnegative. -/
theorem _get_cmap_step2_id (v c1 : String) (vmin : ℚ)
    (h : ¬ (c1 = "ae_diverging" ∧ 0 ≤ vmin)) :
    _get_cmap_step2 v c1 vmin = c1 := if_neg h

/-- Helper: the second override resets `"ae_diverging"` for nonnegative
minima. -/
theorem _get_cmap_step2_reset (v : String) (vmin : ℚ) (h : 0 ≤ vmin) :
    _get_cmap_step2 v "ae_diverging" vmin =
      if v ∈ moisture_variables then "ae_blue" else "ae_orange" :=
  if_pos ⟨rfl, h⟩

/-- C9 amended: when the data minimum is below zero the chosen colormap
always contains `"ae_diverging"` (a diverging palette, reversed for
moisture variables); when the minimum is at or above zero, a default of
exactly `"ae_diverging"` is reset to `ae_blue` for moisture variables and
`ae_orange` otherwise, while every other default — including the diverging
`"ae_diverging_r"` — is kept unchanged. -/
theorem get_cmap_policy_amended (variable_descriptions :
    List (String × String)) (varName : String) (vmin : ℚ) (cmap0 : String)
    (hl : lookup_colormap variable_descriptions varName = some cmap0) :
    (vmin < 0 → ∃ r, _get_cmap_name variable_descriptions varName vmin =
      some r ∧ strContainsSub r "ae_diverging" = true) ∧
    (0 ≤ vmin → cmap0 = "ae_diverging" →
      _get_cmap_name variable_descriptions varName vmin =
        some (if varName ∈ moisture_variables then "ae_blue"
          else "ae_orange")) ∧
    (0 ≤ vmin → cmap0 ≠ "ae_diverging" →
      _get_cmap_name variable_descriptions varName vmin = some cmap0) := by
  unfold _get_cmap_name
  rw [hl, Option.map_some']
  refine ⟨?_, ?_, ?_⟩
  · intro hneg
    cases hsub : strContainsSub cmap0 "ae_diverging" with
    | false =>
        rw [_get_cmap_step1_force varName cmap0 vmin hneg hsub]
        by_cases hm : varName ∈ moisture_variables
        · rw [if_pos hm,
            _get_cmap_step2_id varName "ae_diverging_r" vmin
              (by rintro ⟨hc, -⟩; exact absurd hc (by decide))]
          exact ⟨"ae_diverging_r", rfl, by decide⟩
        · rw [if_neg hm,
            _get_cmap_step2_id varName "ae_diverging" vmin
              (by rintro ⟨-, hge⟩; exact absurd hneg (not_lt.mpr hge))]
          exact ⟨"ae_diverging", rfl, by decide⟩
    | true =>
        rw [_get_cmap_step1_id varName cmap0 vmin
            (by rintro ⟨-, hc⟩; rw [hsub] at hc; exact Bool.noConfusion hc),
          _get_cmap_step2_id varName cmap0 vmin
            (by rintro ⟨-, hge⟩; exact absurd hneg (not_lt.mpr hge))]
        exact ⟨cmap0, rfl, hsub⟩
  · intro hge hdiv
    subst hdiv
    rw [_get_cmap_step1_id varName "ae_diverging" vmin
        (by rintro ⟨-, hc⟩; exact absurd hc (by decide)),
      _get_cmap_step2_reset varName vmin hge]
  · intro hge hne
    rw [_get_cmap_step1_id varName cmap0 vmin
        (by rintro ⟨hneg, -⟩; exact absurd hneg (not_lt.mpr hge)),
      _get_cmap_step2_id varName cmap0 vmin
        (by rintro ⟨hc, -⟩; exact absurd hc hne)]

/-- C9 amended witness: a nonnegative minimum with a sequential default
keeps the default colormap unchanged. -/
theorem get_cmap_policy_amended_witness :
    _get_cmap_name [("Air Temperature at 2m", "ae_orange")]
      "Air Temperature at 2m" 5 = some "ae_orange" :=
  (get_cmap_policy_amended [("Air Temperature at 2m", "ae_orange")]
    "Air Temperature at 2m" 5 "ae_orange" rfl).2.2 (by norm_num) (by decide)

/-- C10: `meteo_yr_heatmap` raises a `ValueError` exactly when the
dataframe has neither 365 nor 366 rows; with 366 rows it produces the
heatmap with the base month ticks, and with 365 rows the heatmap with every
month tick position shifted down by one. -/
theorem meteo_yr_heatmap_validation {row : Type} (meteo_yr_df : List row)
    (title : String) (width height : Nat) :
    (meteo_yr_df.length ≠ 365 → meteo_yr_df.length ≠ 366 →
      meteo_yr_heatmap meteo_yr_df title width height = Except.error
        "Length of dataframe is invalid. Must contain either 366 or 365 days.")
      ∧
    (meteo_yr_df.length = 366 →
      meteo_yr_heatmap meteo_yr_df title width height =
        Except.ok ⟨[(31, "Feb-01"), (91, "Apr-01"), (152, "Jun-01"),
          (213, "Aug-01"), (274, "Oct-01"), (335, "Dec-01")], width, height,
          title⟩) ∧
    (meteo_yr_df.length = 365 →
      meteo_yr_heatmap meteo_yr_df title width height =
        Except.ok ⟨[(30, "Feb-01"), (90, "Apr-01"), (151, "Jun-01"),
          (212, "Aug-01"), (273, "Oct-01"), (334, "Dec-01")], width, height,
          title⟩) := by
  refine ⟨?_, ?_, ?_⟩
  · intro h365 h366
    unfold meteo_yr_heatmap
    rw [if_neg h366, if_neg h365]
  · intro h366
    unfold meteo_yr_heatmap
    rw [if_pos h366]
    rfl
  · intro h365
    unfold meteo_yr_heatmap
    rw [if_neg (by omega : ¬ meteo_yr_df.length = 366), if_pos h365]
    rfl

/-- C10 witness: a 365-row dataframe gets the shifted ticks and a 2-row one
the error. -/
theorem meteo_yr_heatmap_validation_witness :
    meteo_yr_heatmap (List.replicate 365 0) "Meteorological Year" 500 250 =
      Except.ok ⟨[(30, "Feb-01"), (90, "Apr-01"), (151, "Jun-01"),
        (212, "Aug-01"), (273, "Oct-01"), (334, "Dec-01")], 500, 250,
        "Meteorological Year"⟩ ∧
    meteo_yr_heatmap [0, 1] "Meteorological Year" 500 250 = Except.error
      "Length of dataframe is invalid. Must contain either 366 or 365 days."
      :=
  ⟨(meteo_yr_heatmap_validation (List.replicate 365 0) "Meteorological Year"
      500 250).2.2 (by rw [List.length_replicate]),
   (meteo_yr_heatmap_validation [0, 1] "Meteorological Year" 500 250).1
      (by decide) (by decide)⟩
